import Mathlib

/-!
Shallow embedding of `chalk-parse/src/ast.rs`: the term representation of a
small declarative logic language describing a Rust-like trait system.
Machine integers (`usize`) are modelled as `Nat`; Rust `Vec` as `List`;
`Box` indirection disappears (Lean inductives nest directly); the derived
`PartialEq` of each Rust type is structural equality on all fields, which
coincides with propositional equality of the mirrored Lean inductive.
-/

namespace ChalkAst

/-- `lalrpop_intern::InternedString`: a deduplicated intern token.  Interning
guarantees two occurrences of the same text receive the same token, so token
equality coincides with text equality; we model the token as a `Nat`. -/
abbrev InternedString := Nat

/-- `Span { lo: usize, hi: usize }`: a source byte range. -/
structure Span where
  lo : Nat
  hi : Nat
deriving DecidableEq, Repr

/-- `Span::new(lo, hi)`: stores both offsets verbatim (`Span { lo: lo, hi: hi }`). -/
def Span.new (lo hi : Nat) : Span := ⟨lo, hi⟩

/-- Derived `PartialEq` for `Span`: compares both fields. -/
def Span.beq (a b : Span) : Bool := a.lo == b.lo && a.hi == b.hi

/-- `Identifier { str: InternedString, span: Span }`. -/
structure Identifier where
  str : InternedString
  span : Span
deriving DecidableEq, Repr

/-- Derived `PartialEq` for `Identifier`: compares the interned token AND the
span, field by field, exactly as `#[derive(PartialEq)]` does. -/
def Identifier.beq (a b : Identifier) : Bool :=
  a.str == b.str && Span.beq a.span b.span

/-- `enum Kind { Ty, Lifetime }`. -/
inductive Kind where
  | Ty
  | Lifetime
deriving DecidableEq, Repr

/-- The string chosen by `impl fmt::Display for Kind` (the `match` inside
`fmt` passed to `f.write_str`). -/
def Kind.display : Kind → String
  | .Ty => "type"
  | .Lifetime => "lifetime"

/-- `enum ParameterKind { Ty(Identifier), Lifetime(Identifier) }`. -/
inductive ParameterKind where
  | Ty (id : Identifier)
  | Lifetime (id : Identifier)
deriving DecidableEq, Repr

/-- `impl Kinded for ParameterKind`. -/
def ParameterKind.kind : ParameterKind → Kind
  | .Ty _ => .Ty
  | .Lifetime _ => .Lifetime

/-- The interned name declared by a `ParameterKind` (its identifier's `str`). -/
def ParameterKind.name : ParameterKind → InternedString
  | .Ty id => id.str
  | .Lifetime id => id.str

/-- `enum Lifetime { Id { name: Identifier } }`. -/
inductive Lifetime where
  | Id (name : Identifier)
deriving DecidableEq, Repr

mutual

/-- `enum Ty`: bare name, applied name, trait-resolved projection,
unselected projection, or universal quantification over lifetime names. -/
inductive Ty where
  | Id (name : Identifier)
  | Apply (name : Identifier) (args : List Parameter)
  | Projection (proj : ProjectionTy)
  | UnselectedProjection (proj : UnselectedProjectionTy)
  | ForAll (lifetime_names : List Identifier) (ty : Ty)

/-- `enum Parameter { Ty(Ty), Lifetime(Lifetime) }`. -/
inductive Parameter where
  | Ty (ty : Ty)
  | Lifetime (lt : Lifetime)

/-- `struct ProjectionTy { trait_ref, name, args }`. -/
inductive ProjectionTy where
  | mk (trait_ref : TraitRef) (name : Identifier) (args : List Parameter)

/-- `struct UnselectedProjectionTy { name, args }`. -/
inductive UnselectedProjectionTy where
  | mk (name : Identifier) (args : List Parameter)

/-- `struct TraitRef { trait_name, args }`. -/
inductive TraitRef where
  | mk (trait_name : Identifier) (args : List Parameter)

end

/-- `impl Kinded for Parameter`. -/
def Parameter.kind : Parameter → Kind
  | .Ty _ => .Ty
  | .Lifetime _ => .Lifetime

/-- `enum PolarizedTraitRef { Positive(TraitRef), Negative(TraitRef) }`. -/
inductive PolarizedTraitRef where
  | Positive (trait_ref : TraitRef)
  | Negative (trait_ref : TraitRef)

/-- `PolarizedTraitRef::from_bool(polarity, trait_ref)`. -/
def PolarizedTraitRef.from_bool (polarity : Bool) (trait_ref : TraitRef) :
    PolarizedTraitRef :=
  if polarity then PolarizedTraitRef.Positive trait_ref
  else PolarizedTraitRef.Negative trait_ref

/-- `enum WhereClause`. -/
inductive WhereClause where
  | Implemented (trait_ref : TraitRef)
  | ProjectionEq (projection : ProjectionTy) (ty : Ty)

/-- `enum DomainGoal`: the twelve atomic propositions of the domain. -/
inductive DomainGoal where
  | Holds (where_clause : WhereClause)
  | Normalize (projection : ProjectionTy) (ty : Ty)
  | TraitRefWellFormed (trait_ref : TraitRef)
  | TyWellFormed (ty : Ty)
  | TyFromEnv (ty : Ty)
  | TraitRefFromEnv (trait_ref : TraitRef)
  | TraitInScope (trait_name : Identifier)
  | Derefs (source : Ty) (target : Ty)
  | IsLocal (ty : Ty)
  | IsExternal (ty : Ty)
  | IsDeeplyExternal (ty : Ty)
  | LocalImplAllowed (trait_ref : TraitRef)

/-- `enum LeafGoal`. -/
inductive LeafGoal where
  | DomainGoal (goal : DomainGoal)
  | UnifyTys (a : Ty) (b : Ty)
  | UnifyLifetimes (a : Lifetime) (b : Lifetime)

mutual

/-- `enum Goal`: the recursive goal formula language.  `Box` indirection in
the source becomes direct nesting. -/
inductive Goal where
  | ForAll (params : List ParameterKind) (g : Goal)
  | Exists (params : List ParameterKind) (g : Goal)
  | Implies (clauses : List Clause) (g : Goal)
  | And (a : Goal) (b : Goal)
  | Not (g : Goal)
  | Leaf (lg : LeafGoal)

/-- `struct Clause { parameter_kinds, consequence, conditions }`. -/
inductive Clause where
  | mk (parameter_kinds : List ParameterKind) (consequence : DomainGoal)
       (conditions : List Goal)

end

/-- `struct QuantifiedWhereClause { parameter_kinds, where_clause }`. -/
structure QuantifiedWhereClause where
  parameter_kinds : List ParameterKind
  where_clause : WhereClause

/-- `struct Field { name, ty }`. -/
structure Field where
  name : Identifier
  ty : Ty

/-- `struct StructFlags { external, fundamental }`. -/
structure StructFlags where
  external : Bool
  fundamental : Bool

/-- `struct StructDefn`. -/
structure StructDefn where
  name : Identifier
  parameter_kinds : List ParameterKind
  where_clauses : List QuantifiedWhereClause
  fields : List Field
  flags : StructFlags

/-- `struct TraitFlags { auto, marker, external, deref }`. -/
structure TraitFlags where
  auto : Bool
  marker : Bool
  external : Bool
  deref : Bool

/-- `struct TraitBound { trait_name, args_no_self }`. -/
structure TraitBound where
  trait_name : Identifier
  args_no_self : List Parameter

/-- `struct ProjectionEqBound { trait_bound, name, args, value }`. -/
structure ProjectionEqBound where
  trait_bound : TraitBound
  name : Identifier
  args : List Parameter
  value : Ty

/-- `enum InlineBound { TraitBound(TraitBound), ProjectionEqBound(ProjectionEqBound) }`. -/
inductive InlineBound where
  | TraitBound (tb : TraitBound)
  | ProjectionEqBound (peb : ProjectionEqBound)

/-- `struct AssocTyDefn { name, parameter_kinds, bounds, where_clauses }`. -/
structure AssocTyDefn where
  name : Identifier
  parameter_kinds : List ParameterKind
  bounds : List InlineBound
  where_clauses : List QuantifiedWhereClause

/-- `struct TraitDefn { name, parameter_kinds, where_clauses, assoc_ty_defns, flags }`. -/
structure TraitDefn where
  name : Identifier
  parameter_kinds : List ParameterKind
  where_clauses : List QuantifiedWhereClause
  assoc_ty_defns : List AssocTyDefn
  flags : TraitFlags

/-- `struct AssocTyValue { name, parameter_kinds, value }`. -/
structure AssocTyValue where
  name : Identifier
  parameter_kinds : List ParameterKind
  value : Ty

/-- `struct Impl { parameter_kinds, trait_ref, where_clauses, assoc_ty_values }`. -/
structure Impl where
  parameter_kinds : List ParameterKind
  trait_ref : PolarizedTraitRef
  where_clauses : List QuantifiedWhereClause
  assoc_ty_values : List AssocTyValue

/-- `enum Item { StructDefn(..), TraitDefn(..), Impl(..), Clause(..) }`. -/
inductive Item where
  | StructDefn (s : StructDefn)
  | TraitDefn (t : TraitDefn)
  | Impl (i : Impl)
  | Clause (c : Clause)

/-- `struct Program { items: Vec<Item> }`. -/
structure Program where
  items : List Item

/-! Accessors.  The Rust constructors are bare enum variants; these matches
recover the stored components, witnessing that construction stores them
verbatim and performs no validation. -/

/-- The parameter list stored in a `Goal::ForAll` or `Goal::Exists` binder. -/
def Goal.binderParams : Goal → Option (List ParameterKind)
  | .ForAll ps _ => some ps
  | .Exists ps _ => some ps
  | _ => none

/-- The body stored in a `Goal::ForAll` or `Goal::Exists` binder. -/
def Goal.binderBody : Goal → Option Goal
  | .ForAll _ g => some g
  | .Exists _ g => some g
  | _ => none

/-- The clause list stored in a `Goal::Implies`. -/
def Goal.impliesClauses : Goal → Option (List Clause)
  | .Implies cs _ => some cs
  | _ => none

/-- The body stored in a `Goal::Implies`. -/
def Goal.impliesBody : Goal → Option Goal
  | .Implies _ g => some g
  | _ => none

/-- The clause-local quantifier list of a `Clause` (its `parameter_kinds`). -/
def Clause.parameter_kinds : Clause → List ParameterKind
  | .mk ps _ _ => ps

/-- The consequence of a `Clause`. -/
def Clause.consequence : Clause → DomainGoal
  | .mk _ c _ => c

/-- The condition list of a `Clause`. -/
def Clause.conditions : Clause → List Goal
  | .mk _ _ gs => gs

/-- The lifetime-name list stored in a `Ty::ForAll` binder. -/
def Ty.forallNames : Ty → Option (List Identifier)
  | .ForAll ns _ => some ns
  | _ => none

/-- The body stored in a `Ty::ForAll` binder. -/
def Ty.forallBody : Ty → Option Ty
  | .ForAll _ t => some t
  | _ => none

/-- The spec's "same interned name twice within one binder" condition
(§4.3/§7): true iff some interned name occurs at two positions of the
parameter list.  The source contains no corresponding check anywhere. -/
def hasDupName : List ParameterKind → Bool
  | [] => false
  | p :: rest => rest.any (fun q => p.name == q.name) || hasDupName rest

/-! A `DomainGoal`-free representation type with exactly twelve summands,
one per `DomainGoal` variant, used to exhibit that `DomainGoal` is a closed
sum of twelve variants none of whose payloads mentions `DomainGoal`. -/

abbrev DomainGoalRep : Type :=
  WhereClause ⊕ (ProjectionTy × Ty) ⊕ TraitRef ⊕ Ty ⊕ Ty ⊕ TraitRef ⊕
    Identifier ⊕ (Ty × Ty) ⊕ Ty ⊕ Ty ⊕ Ty ⊕ TraitRef

/-- Variant-by-variant map of `DomainGoal` onto the twelve-summand
representation. -/
def DomainGoal.toRep : DomainGoal → DomainGoalRep
  | .Holds wc => .inl wc
  | .Normalize p t => .inr (.inl (p, t))
  | .TraitRefWellFormed tr => .inr (.inr (.inl tr))
  | .TyWellFormed t => .inr (.inr (.inr (.inl t)))
  | .TyFromEnv t => .inr (.inr (.inr (.inr (.inl t))))
  | .TraitRefFromEnv tr => .inr (.inr (.inr (.inr (.inr (.inl tr)))))
  | .TraitInScope n => .inr (.inr (.inr (.inr (.inr (.inr (.inl n))))))
  | .Derefs s t =>
      .inr (.inr (.inr (.inr (.inr (.inr (.inr (.inl (s, t))))))))
  | .IsLocal t =>
      .inr (.inr (.inr (.inr (.inr (.inr (.inr (.inr (.inl t))))))))
  | .IsExternal t =>
      .inr (.inr (.inr (.inr (.inr (.inr (.inr (.inr (.inr (.inl t)))))))))
  | .IsDeeplyExternal t =>
      .inr (.inr (.inr (.inr (.inr (.inr (.inr (.inr (.inr (.inr (.inl t))))))))))
  | .LocalImplAllowed tr =>
      .inr (.inr (.inr (.inr (.inr (.inr (.inr (.inr (.inr (.inr (.inr tr))))))))))

/-- Inverse of `DomainGoal.toRep`. -/
def DomainGoal.fromRep : DomainGoalRep → DomainGoal
  | .inl wc => .Holds wc
  | .inr (.inl (p, t)) => .Normalize p t
  | .inr (.inr (.inl tr)) => .TraitRefWellFormed tr
  | .inr (.inr (.inr (.inl t))) => .TyWellFormed t
  | .inr (.inr (.inr (.inr (.inl t)))) => .TyFromEnv t
  | .inr (.inr (.inr (.inr (.inr (.inl tr))))) => .TraitRefFromEnv tr
  | .inr (.inr (.inr (.inr (.inr (.inr (.inl n)))))) => .TraitInScope n
  | .inr (.inr (.inr (.inr (.inr (.inr (.inr (.inl (s, t)))))))) =>
      .Derefs s t
  | .inr (.inr (.inr (.inr (.inr (.inr (.inr (.inr (.inl t)))))))) =>
      .IsLocal t
  | .inr (.inr (.inr (.inr (.inr (.inr (.inr (.inr (.inr (.inl t))))))))) =>
      .IsExternal t
  | .inr (.inr (.inr (.inr (.inr (.inr (.inr (.inr (.inr (.inr (.inl t)))))))))) =>
      .IsDeeplyExternal t
  | .inr (.inr (.inr (.inr (.inr (.inr (.inr (.inr (.inr (.inr (.inr tr)))))))))) =>
      .LocalImplAllowed tr

/-! Concrete sample terms used by the closed counterexamples. -/

/-- The interned name `Foo` (token 0) at bytes 0–3. -/
def identFoo1 : Identifier := ⟨0, Span.new 0 3⟩

/-- The same interned name `Foo` (token 0) at bytes 10–13. -/
def identFoo2 : Identifier := ⟨0, Span.new 10 13⟩

/-- The interned name `T` (token 1) at bytes 20–21. -/
def identT1 : Identifier := ⟨1, Span.new 20 21⟩

/-- The same interned name `T` (token 1) at bytes 30–31. -/
def identT2 : Identifier := ⟨1, Span.new 30 31⟩

/-- A binder list declaring the same interned name `T` twice. -/
def dupParams : List ParameterKind :=
  [ParameterKind.Ty identT1, ParameterKind.Ty identT2]

/-- The type term `T`. -/
def tyT : Ty := Ty.Id identT1

/-- A leaf goal, `WellFormed(T)`. -/
def trivialGoal : Goal :=
  Goal.Leaf (LeafGoal.DomainGoal (DomainGoal.TyWellFormed tyT))

/-! Helper lemmas shared by the claim theorems. -/

/-- `Span.beq` agrees with propositional equality. -/
theorem Span.beq_iff (a b : Span) : Span.beq a b = true ↔ a = b := by
  cases a
  cases b
  simp [Span.beq, Span.mk.injEq]

/-! Claim theorems. -/

/-- C1 (counterexample): `identFoo1` and `identFoo2` carry the same interned
token but different spans, yet the derived equality of `Identifier` compares
them UNEQUAL — refuting the claim that identifiers with equal text at
different spans compare equal as terms. -/
theorem identifier_beq_uses_span_counterexample :
    identFoo1.str = identFoo2.str ∧ identFoo1.span ≠ identFoo2.span ∧
      Identifier.beq identFoo1 identFoo2 = false := by
  decide

/-- C1 (amended): the derived equality of `Identifier` compares both the
interned token and the span: two identifiers compare equal iff both their
interned tokens and their spans agree, so equal text at different spans
compares unequal. -/
theorem identifier_beq_iff (a b : Identifier) :
    Identifier.beq a b = true ↔ a.str = b.str ∧ a.span = b.span := by
  cases a
  cases b
  simp [Identifier.beq, Span.beq_iff]

/-- C2 (counterexample): the binder list `dupParams` repeats the interned
name `T` twice, yet `Goal::ForAll(dupParams, g)` is constructed without any
error: the term exists and stores the duplicate list and the body verbatim —
refuting the claim that such construction fails as a structural error. -/
theorem dup_binder_accepted_counterexample :
    hasDupName dupParams = true ∧
      Goal.binderParams (Goal.ForAll dupParams trivialGoal) = some dupParams ∧
      Goal.binderBody (Goal.ForAll dupParams trivialGoal) = some trivialGoal :=
  ⟨rfl, rfl, rfl⟩

/-- C2 (amended): binder construction never fails and performs no
duplicate-name check anywhere: `Goal::ForAll`/`Goal::Exists`, the clause
lists of `Goal::Implies` (each `Clause` with its own `parameter_kinds`),
`Ty::ForAll` lifetime-name lists, and every declaration parameter list
(`StructDefn`, `TraitDefn`, `AssocTyDefn`, `Impl`, `AssocTyValue`, `Clause`,
`QuantifiedWhereClause`) are bare variant/record constructors that accept any
parameter/name list — duplicate interned names included — and store list and
payload verbatim. -/
theorem binder_construction_total_verbatim :
    (∀ (ps : List ParameterKind) (g : Goal),
        Goal.binderParams (Goal.ForAll ps g) = some ps ∧
        Goal.binderBody (Goal.ForAll ps g) = some g ∧
        Goal.binderParams (Goal.Exists ps g) = some ps ∧
        Goal.binderBody (Goal.Exists ps g) = some g) ∧
    (∀ (cs : List Clause) (g : Goal),
        Goal.impliesClauses (Goal.Implies cs g) = some cs ∧
        Goal.impliesBody (Goal.Implies cs g) = some g) ∧
    (∀ (ns : List Identifier) (t : Ty),
        Ty.forallNames (Ty.ForAll ns t) = some ns ∧
        Ty.forallBody (Ty.ForAll ns t) = some t) ∧
    (∀ (ps : List ParameterKind) (c : DomainGoal) (gs : List Goal),
        Clause.parameter_kinds (Clause.mk ps c gs) = ps ∧
        Clause.consequence (Clause.mk ps c gs) = c ∧
        Clause.conditions (Clause.mk ps c gs) = gs) ∧
    (∀ (n : Identifier) (ps : List ParameterKind)
        (wc : List QuantifiedWhereClause) (fs : List Field) (fl : StructFlags),
        (StructDefn.mk n ps wc fs fl).parameter_kinds = ps) ∧
    (∀ (n : Identifier) (ps : List ParameterKind)
        (wc : List QuantifiedWhereClause) (ds : List AssocTyDefn)
        (fl : TraitFlags),
        (TraitDefn.mk n ps wc ds fl).parameter_kinds = ps) ∧
    (∀ (n : Identifier) (ps : List ParameterKind) (bs : List InlineBound)
        (wc : List QuantifiedWhereClause),
        (AssocTyDefn.mk n ps bs wc).parameter_kinds = ps) ∧
    (∀ (ps : List ParameterKind) (tr : PolarizedTraitRef)
        (wc : List QuantifiedWhereClause) (vs : List AssocTyValue),
        (Impl.mk ps tr wc vs).parameter_kinds = ps) ∧
    (∀ (n : Identifier) (ps : List ParameterKind) (v : Ty),
        (AssocTyValue.mk n ps v).parameter_kinds = ps) ∧
    (∀ (ps : List ParameterKind) (w : WhereClause),
        (QuantifiedWhereClause.mk ps w).parameter_kinds = ps) :=
  ⟨fun _ _ => ⟨rfl, rfl, rfl, rfl⟩, fun _ _ => ⟨rfl, rfl⟩,
   fun _ _ => ⟨rfl, rfl⟩, fun _ _ _ => ⟨rfl, rfl, rfl⟩,
   fun _ _ _ _ _ => rfl, fun _ _ _ _ _ => rfl, fun _ _ _ _ => rfl,
   fun _ _ _ _ => rfl, fun _ _ _ => rfl, fun _ _ => rfl⟩

/-- C3: `kind()` maps the `Ty` variants of `ParameterKind`/`Parameter` to
`Kind::Ty` and the `Lifetime` variants to `Kind::Lifetime`; being a pure
total function of the variant tag, it is defined on every constructed value
and returns the same result on repeated calls. -/
theorem kinded_kind_total_correct :
    (∀ id, (ParameterKind.Ty id).kind = Kind.Ty) ∧
    (∀ id, (ParameterKind.Lifetime id).kind = Kind.Lifetime) ∧
    (∀ t, (Parameter.Ty t).kind = Kind.Ty) ∧
    (∀ l, (Parameter.Lifetime l).kind = Kind.Lifetime) ∧
    (∀ pk : ParameterKind, pk.kind = pk.kind) ∧
    (∀ p : Parameter, p.kind = p.kind) :=
  ⟨fun _ => rfl, fun _ => rfl, fun _ => rfl, fun _ => rfl,
   fun _ => rfl, fun _ => rfl⟩

/-- C4: `PolarizedTraitRef::from_bool(true, tr)` is `Positive(tr)` and
`from_bool(false, tr)` is `Negative(tr)`, with the trait reference passed
through unchanged. -/
theorem from_bool_polarity (tr : TraitRef) :
    PolarizedTraitRef.from_bool true tr = PolarizedTraitRef.Positive tr ∧
      PolarizedTraitRef.from_bool false tr = PolarizedTraitRef.Negative tr :=
  ⟨rfl, rfl⟩

/-- C5 (counterexample): `Span::new(5, 3)` succeeds and yields a `Span` with
`lo = 5 > hi = 3` — refuting the claim that every `Span` produced by
`Span::new` satisfies `lo <= hi`. -/
theorem span_lo_le_hi_counterexample :
    (Span.new 5 3).lo = 5 ∧ (Span.new 5 3).hi = 3 ∧
      ¬ (Span.new 5 3).lo ≤ (Span.new 5 3).hi := by
  decide

/-- C5 (amended): `Span::new` performs no validation and stores both offsets
verbatim, so the `Span` it produces satisfies `lo <= hi` exactly when the
arguments already did. -/
theorem span_new_le_iff (lo hi : Nat) :
    (Span.new lo hi).lo ≤ (Span.new lo hi).hi ↔ lo ≤ hi :=
  Iff.rfl

/-- C6: a `Ty::Projection` carrying `ProjectionTy { trait_ref, name, args }`
never equals a `Ty::UnselectedProjection` carrying
`UnselectedProjectionTy { name, args }`, even when `name` and `args`
coincide: they are distinct variants of the `Ty` sum. -/
theorem projection_ne_unselected (tr : TraitRef) (n : Identifier)
    (a : List Parameter) :
    Ty.Projection (ProjectionTy.mk tr n a) ≠
      Ty.UnselectedProjection (UnselectedProjectionTy.mk n a) :=
  fun h => Ty.noConfusion h

/-- C7: `DomainGoal` is a closed sum of exactly twelve variants with no
self-nesting: `toRep`/`fromRep` form a bijection between `DomainGoal` and
`DomainGoalRep`, a sum of twelve payload types none of which mentions
`DomainGoal`. -/
theorem domain_goal_twelve_variants_no_nesting :
    (∀ g : DomainGoal, DomainGoal.fromRep (DomainGoal.toRep g) = g) ∧
    (∀ r : DomainGoalRep, DomainGoal.toRep (DomainGoal.fromRep r) = r) := by
  constructor
  · intro g
    cases g <;> rfl
  · intro r
    rcases r with w | ⟨p, t⟩ | tr | t | t | tr | n | ⟨s, t⟩ | t | t | t | tr <;>
      rfl

/-- C8: for every goal `g`, `Goal::Exists([], g)` and `Goal::ForAll([], g)`
are constructible terms (the constructors are total), and each is distinct
from `g` and from the other. -/
theorem empty_binder_goals_distinct (g : Goal) :
    Goal.Exists [] g ≠ g ∧ Goal.ForAll [] g ≠ g ∧
      Goal.Exists [] g ≠ Goal.ForAll [] g := by
  refine ⟨?_, ?_, ?_⟩
  · intro h
    have := congrArg sizeOf h
    simp at this
  · intro h
    have := congrArg sizeOf h
    simp at this
  · intro h
    exact Goal.noConfusion h

/-- C9: the `Display` rendering of `Kind` (a total match) yields exactly
`"type"` for `Kind::Ty` and exactly `"lifetime"` for `Kind::Lifetime`. -/
theorem kind_display_values :
    Kind.display Kind.Ty = "type" ∧ Kind.display Kind.Lifetime = "lifetime" :=
  ⟨rfl, rfl⟩

/-- C10: for every pair of offsets — the case `lo > hi` included —
`Span::new(lo, hi)` succeeds and stores the first argument in `lo` and the
second in `hi`, verbatim and unvalidated. -/
theorem span_new_verbatim (lo hi : Nat) :
    (Span.new lo hi).lo = lo ∧ (Span.new lo hi).hi = hi :=
  ⟨rfl, rfl⟩

end ChalkAst
